import Mathlib

/-!
Verification of the fact-first meeting-analyzer pipeline.

The development shallowly embeds the pipeline's pure logic:
fact models, the recovery JSON parse of the fact extractor, the
rule-based fact validators (both the `src2` and the `src3` variant),
the to-do repair step, the e-mail generation loop, and the final
compliance check.  Generator (LLM) calls are modelled as oracles:
functions from the attempt index to an optional response, `none`
standing for a raised transport exception.

String handling mirrors Python semantics on `List Char`:
`pyLen` is `len`, `pyLower` is `str.lower` (ASCII case, the only case
the sources exercise), `containsSub` is the `in` substring test,
`pyStrip` is `str.strip()`, `pyWords` is `str.split()`.
-/

/-- Python `len` on a string: number of characters. -/
def pyLen (s : String) : Nat := s.data.length

/-- Python `str.lower()` restricted to ASCII case mapping. -/
def pyLower (s : String) : String := ⟨s.data.map Char.toLower⟩

/-- Python whitespace for `str.strip()` / `\s`: space, tab, newline,
carriage return, vertical tab, form feed. -/
def pySpace (c : Char) : Bool :=
  c = ' ' || c = '\t' || c = '\n' || c = '\r' || c = '\x0b' || c = '\x0c'

/-- Python `str.strip()` with no argument. -/
def pyStrip (s : String) : String :=
  ⟨((s.data.dropWhile pySpace).reverse.dropWhile pySpace).reverse⟩

/-- Substring containment on char lists: Python `needle in hay`. -/
def subList (needle hay : List Char) : Bool :=
  hay.tails.any (fun t => needle.isPrefixOf t)

/-- Python `needle in hay` for strings. -/
def containsSub (needle hay : String) : Bool := subList needle.data hay.data

/-- Python slicing `s[:n]` (character based). -/
def pyTake (n : Nat) (s : String) : String := ⟨s.data.take n⟩

/-- Python slicing `s[n:]` (character based). -/
def pyDrop (n : Nat) (s : String) : String := ⟨s.data.drop n⟩

/-- Splitter for Python `str.split()`: maximal whitespace-free words. -/
def pyWordsAux : Nat → List Char → List (List Char)
  | 0, _ => []
  | _, [] => []
  | Nat.succ fuel, cs =>
    let cs' := cs.dropWhile pySpace
    match cs'.takeWhile (fun c => !pySpace c), cs'.dropWhile (fun c => !pySpace c) with
    | [], _ => []
    | w, rest => w :: pyWordsAux fuel rest

/-- Python `str.split()` (whitespace split, empties dropped). -/
def pyWords (s : String) : List String :=
  (pyWordsAux (s.data.length + 1) s.data).map String.mk

/-- Number of words of `str.split()`. -/
def pyWordCount (s : String) : Nat := (pyWords s).length

/-- Python `str.startswith` on a literal. -/
def pyStartsWith (needle s : String) : Bool := needle.data.isPrefixOf s.data

/-- Python `str.split(sep)` for a non-empty separator (fuel worker). -/
def pySplitOnAux (sep : List Char) : Nat → List Char → List Char → List (List Char)
  | 0, acc, _ => [acc.reverse]
  | _, acc, [] => [acc.reverse]
  | Nat.succ fuel, acc, c :: rest =>
    if sep.isPrefixOf (c :: rest) then
      acc.reverse :: pySplitOnAux sep fuel [] ((c :: rest).drop sep.length)
    else
      pySplitOnAux sep fuel (c :: acc) rest

/-- Python `str.split(sep)`. -/
def pySplitOn (sep s : String) : List String :=
  (pySplitOnAux sep.data (s.data.length + 1) [] s.data).map String.mk

/-- Python `str.isdigit` restricted to ASCII digits. -/
def pyIsDigit (s : String) : Bool := s ≠ "" && s.data.all Char.isDigit

/-! ## Data model (src2/models.py; src3 uses the same classes) -/

/-- `ExtractedFact` (models.py): a single fact extracted from the
transcript.  The `Literal` constraints of the pydantic model are
enforced at construction time in the recovery parse below. -/
structure ExtractedFact where
  fact_type : String
  content : String
  source_quote : String
  confidence : String
  context : Option String
deriving DecidableEq, Repr

/-- `ExtractedFacts` (models.py): all facts extracted per category. -/
structure ExtractedFacts where
  decisions : List ExtractedFact
  action_items : List ExtractedFact
  open_questions : List ExtractedFact
  deadlines : List ExtractedFact
  metrics : List ExtractedFact
deriving DecidableEq, Repr

/-- `ValidatedFact` (models.py). -/
structure ValidatedFact where
  fact_type : String
  content : String
  source_quote : String
  confidence : String
  is_valid : Bool
  validation_notes : Option String
deriving DecidableEq, Repr

/-- `ValidatedFacts` (models.py): validated facts plus discard ledger. -/
structure ValidatedFacts where
  facts : List ValidatedFact
  discarded_count : Nat
  discarded_reasons : List String
deriving DecidableEq, Repr

/-- `ActionPoint` (models.py). -/
structure ActionPoint where
  description : String
  priority : String
  source_facts : List String
deriving DecidableEq, Repr

/-- `ToDo` (models.py): `deadline` is `Optional[str]`. -/
structure ToDo where
  task : String
  deadline : Option String
  priority : String
  source_facts : List String
deriving DecidableEq, Repr

/-- `FollowUpEmail` (models.py). -/
structure FollowUpEmail where
  subject : String
  body : String
  source_facts : List String
deriving DecidableEq, Repr

/-- `MeetingOutputs` (models.py): the output bundle (artifact slots
plus provenance counters). -/
structure MeetingOutputs where
  summary : String
  action_points : List ActionPoint
  todos : List ToDo
  follow_up_emails : List FollowUpEmail
  total_facts_extracted : Nat
  total_facts_validated : Nat
  facts_discarded : Nat
deriving DecidableEq, Repr

/-! ## Fact Validator, src3 variant (src3/nodes/validate_facts.py) -/

namespace Src3

/-- Conditional patterns of rule 2 of `_validate_single_fact`
(src3/nodes/validate_facts.py lines 82-91). -/
def conditional_patterns : List String :=
  [" if it fails", " if the test fails", " if needed", " might have to",
   " may need to", " could be", " would be", " should consider"]

/-- Commitment markers of rule 3 of `_validate_single_fact`
(src3/nodes/validate_facts.py line 99). -/
def commitment_words : List String :=
  ["will", "going to", "please", "let\x27s", "\x27ll", "send", "run",
   "schedule", "reach out", "set up", "ensure", "upload"]

/-- Vague phrases of rule 4 of `_validate_single_fact`
(src3/nodes/validate_facts.py line 105). -/
def vague_only_phrases : List String :=
  ["follow up", "look into", "think about", "work on", "check on"]

/-- `_validate_single_fact` (src3/nodes/validate_facts.py lines 67-115):
returns `(is_valid, reason_if_invalid)`; rules applied in order, first
failing rule wins. -/
def validate_single_fact (fact : ExtractedFact) : Bool × Option String :=
  let content := pyLower fact.content
  let source := pyLower fact.source_quote
  if fact.source_quote = "" ∨ pyLen fact.source_quote < 5 then
    (false, some ("Missing source quote: " ++ pyTake 50 fact.content))
  else if conditional_patterns.any
      (fun p => containsSub p content || containsSub p source) then
    (false, some ("Conditional statement: " ++ pyTake 50 fact.content))
  else if fact.fact_type = "action_item" ∧
      ¬ commitment_words.any (fun w => containsSub w source) = true then
    (false, some ("No clear commitment: " ++ pyTake 50 fact.content))
  else if vague_only_phrases.any
      (fun p => pyStrip content == p ||
        (containsSub p content && decide (pyLen content < 20))) then
    (false, some ("Too vague: " ++ pyTake 50 fact.content))
  else if fact.confidence = "low" then
    (false, some ("Low confidence: " ++ pyTake 50 fact.content))
  else
    (true, none)

/-- The `ValidatedFact` built for a surviving fact
(src3/nodes/validate_facts.py lines 38-44): fields copied verbatim,
`is_valid = True`, notes left at their default. -/
def mkValidated (fact : ExtractedFact) : ValidatedFact :=
  ⟨fact.fact_type, fact.content, fact.source_quote, fact.confidence,
   true, none⟩

/-- The fact loop of `validate_facts` (src3/nodes/validate_facts.py
lines 34-47): returns (validated, discarded, discarded_reasons) in
iteration order.  A rejected fact always carries a `some` reason; the
`getD` default is never reached. -/
def validateList : List ExtractedFact →
    List ValidatedFact × List ExtractedFact × List String
  | [] => ([], [], [])
  | fact :: rest =>
    let r := validateList rest
    if (validate_single_fact fact).1 = true then
      (mkValidated fact :: r.1, r.2.1, r.2.2)
    else
      (r.1, fact :: r.2.1, ((validate_single_fact fact).2.getD "") :: r.2.2)

/-- `validate_facts` (src3/nodes/validate_facts.py lines 11-64) on the
extracted facts it reads from the state.  The skill text loaded at
line 20 is never consulted by the rules, and `open_questions` are not
part of the combined list (lines 27-32). -/
def validate_facts (extracted : ExtractedFacts) : ValidatedFacts :=
  let all_facts := extracted.decisions ++ extracted.action_items ++
    extracted.deadlines ++ extracted.metrics
  let r := validateList all_facts
  ⟨r.1, r.2.1.length, r.2.2⟩

end Src3

/-! ## Fact Validator, src2 variant (src2/nodes/validate_facts.py) -/

namespace Src2

/-- Generic phrases of rule 3 (src2/nodes/validate_facts.py line 44). -/
def generic_phrases : List String :=
  ["discuss", "talk about", "look into", "follow up"]

/-- Commitment words of rule 4 (src2/nodes/validate_facts.py line 52). -/
def commitment_words : List String :=
  ["will", "going to", "need to", "must", "should", "please", "send me"]

/-- Imperative verbs of rule 4 (src2/nodes/validate_facts.py line 56). -/
def imperative_verbs : List String :=
  ["send", "run", "reach", "ensure", "schedule", "set up", "get", "provide"]

/-- The rule cascade of the src2 validator body (lines 32-59): `none`
means the fact survives, `some r` is the discard reason. -/
def rejectReason (fact : ExtractedFact) : Option String :=
  if fact.confidence = "low" ∧
      (fact.fact_type = "decision" ∨ fact.fact_type = "action_item") then
    some ("Low confidence " ++ fact.fact_type ++ ": " ++ pyTake 50 fact.content)
  else if pyWordCount fact.source_quote < 3 then
    some ("Vague source quote: " ++ pyTake 50 fact.content)
  else if generic_phrases.any (fun p => containsSub p (pyLower fact.content)) ∧
      fact.confidence ≠ "high" then
    some ("Generic content: " ++ pyTake 50 fact.content)
  else if fact.fact_type = "action_item" ∧
      ¬ commitment_words.any
        (fun w => containsSub w (pyLower fact.source_quote)) = true ∧
      ¬ imperative_verbs.any
        (fun w => containsSub w (pyLower fact.source_quote)) = true then
    some ("No clear commitment: " ++ pyTake 50 fact.content)
  else
    none

/-- The `ValidatedFact` built for a surviving fact (lines 62-69). -/
def mkValidated (fact : ExtractedFact) : ValidatedFact :=
  ⟨fact.fact_type, fact.content, fact.source_quote, fact.confidence,
   true, some "Passed all validation rules"⟩

/-- The fact loop of src2's `validate_facts` (lines 32-69): returns
(validated_list, discarded reasons), in iteration order. -/
def validateList : List ExtractedFact → List ValidatedFact × List String
  | [] => ([], [])
  | fact :: rest =>
    let r := validateList rest
    match rejectReason fact with
    | some reason => (r.1, reason :: r.2)
    | none => (mkValidated fact :: r.1, r.2)

/-- src2's `validate_facts` (src2/nodes/validate_facts.py lines 10-86);
unlike src3 it also feeds `open_questions` through the rules. -/
def validate_facts (extracted : ExtractedFacts) : ValidatedFacts :=
  let all_facts := extracted.decisions ++ extracted.action_items ++
    extracted.open_questions ++ extracted.deadlines ++ extracted.metrics
  let r := validateList all_facts
  ⟨r.1, r.2.length, r.2⟩

end Src2

/-! ## Compliance Checker (src3/nodes/compliance_check.py) -/

namespace Src3

/-- Deadline sentinel strings of the compliance check
(src3/nodes/compliance_check.py line 42). -/
def compliance_deadline_sentinels : List String := ["not specified", "none", "n/a"]

/-- The issue list accumulated by `compliance_check`
(src3/nodes/compliance_check.py lines 25-49): action points checked for
empty `source_facts`, todos for empty `source_facts` and sentinel
deadlines, e-mails only for bracket placeholders.  The set of fact
contents built at line 28 is never used by the checks and is omitted. -/
def compliance_issues (outs : MeetingOutputs) : List String :=
  let apIssues := outs.action_points.flatMap (fun ap =>
    if ap.source_facts = [] then
      ["Action point missing source_facts: " ++ pyTake 50 ap.description]
    else [])
  let tdIssues := outs.todos.flatMap (fun td =>
    (if td.source_facts = [] then
      ["Todo missing source_facts: " ++ pyTake 50 td.task]
    else []) ++
    (match td.deadline with
     | some d =>
       if d ≠ "" ∧ pyLower d ∈ compliance_deadline_sentinels then
         ["Todo has invalid deadline format: " ++ d]
       else []
     | none => []))
  let emIssues := outs.follow_up_emails.flatMap (fun email =>
    if containsSub "[" email.body ∧ containsSub "]" email.body then
      ["Email contains placeholders"]
    else [])
  apIssues ++ tdIssues ++ emIssues

/-- `compliance_check` (src3/nodes/compliance_check.py lines 9-64) on
the two state fields it reads; `none` stands for a missing/falsy state
entry.  Returns `(compliance_passed, compliance_issues)`. -/
def compliance_check (outputs : Option MeetingOutputs)
    (validated : Option ValidatedFacts) : Bool × List String :=
  match outputs, validated with
  | some outs, some _ =>
    ((compliance_issues outs).isEmpty, compliance_issues outs)
  | _, _ => (false, ["Missing outputs or validated facts"])

/-! ## To-Do generator (src3/nodes/generate_todos.py) -/

/-- Deadline sentinel strings coerced to null by the repair step
(src3/nodes/generate_todos.py line 97). -/
def deadline_sentinels : List String := ["not specified", "none", "n/a", "tbd", "null"]

/-- Task verbs that mark a deadline as a disguised task
(src3/nodes/generate_todos.py line 107). -/
def deadline_task_verbs : List String :=
  ["run", "send", "schedule", "reach", "upload", "complete", "review"]

/-- First fix of `_fix_common_issues` (lines 96-103): a non-empty
deadline equal (lowercased) to a sentinel becomes a true null. -/
def fix_sentinel_deadline (todo : ToDo) : ToDo :=
  match todo.deadline with
  | some d =>
    if d ≠ "" ∧ pyLower d ∈ deadline_sentinels then
      ⟨todo.task, none, todo.priority, todo.source_facts⟩
    else todo
  | none => todo

/-- Second fix of `_fix_common_issues` (lines 105-114): a non-empty
deadline containing a task verb becomes a true null. -/
def fix_verb_deadline (todo : ToDo) : ToDo :=
  match todo.deadline with
  | some d =>
    if d ≠ "" ∧ deadline_task_verbs.any (fun vb => containsSub vb (pyLower d)) = true then
      ⟨todo.task, none, todo.priority, todo.source_facts⟩
    else todo
  | none => todo

/-- The per-todo body of `_fix_common_issues`: sentinel fix, then the
verb fix applied to the result. -/
def fix_todo_item (todo : ToDo) : ToDo :=
  fix_verb_deadline (fix_sentinel_deadline todo)

/-- `_fix_common_issues` (src3/nodes/generate_todos.py lines 92-118). -/
def fix_common_issues (todos : List ToDo) : List ToDo :=
  todos.map fix_todo_item

/-- `_validate_todos` (src3/nodes/generate_todos.py lines 121-141). -/
def validate_todos (todos : List ToDo) : List String :=
  let tasks := todos.map (fun td => pyStrip (pyLower td.task))
  (if tasks.length ≠ tasks.eraseDups.length then
    ["Contains duplicate todos - remove duplicates"]
  else []) ++
  todos.flatMap (fun td =>
    if [" if ", " might ", " may "].any (fun w => containsSub w (pyLower td.task)) then
      ["Contains conditional: \x27" ++ td.task ++ "\x27 - remove conditionals"]
    else []) ++
  todos.flatMap (fun td => td.source_facts.flatMap (fun sf =>
    if pyIsDigit sf || sf ∈ ["1", "2", "3", "4", "5"] then
      ["source_facts contains index \x27" ++ sf ++ "\x27 - use actual fact text"]
    else []))

/-- The retry loop of `generate_todos` (lines 49-89).  The oracle maps
an attempt number to the parsed to-do list of that attempt's generator
response (`none` = invoke/parse/pydantic exception); source-fact
deduplication inside the parse is part of the oracle.  The fuel
argument counts the attempts still available including the current one
(`fuel > 1` iff `attempt < max_retries`); the `0` case is unreachable
from `generate_todos`. -/
def todos_attempts (oracle : Nat → Option (List ToDo)) : Nat → Nat → List ToDo
  | 0, _ => []
  | Nat.succ fuel, attempt =>
    match oracle attempt with
    | some raw =>
      let todos := fix_common_issues raw
      if validate_todos todos ≠ [] ∧ fuel ≠ 0 then
        todos_attempts oracle fuel (attempt + 1)
      else todos
    | none =>
      if fuel ≠ 0 then todos_attempts oracle fuel (attempt + 1)
      else []

/-- `generate_todos` (src3/nodes/generate_todos.py lines 13-89): empty
result without any generator call when no action-item facts exist,
otherwise up to 3 attempts. -/
def generate_todos (validated : ValidatedFacts)
    (oracle : Nat → Option (List ToDo)) : List ToDo :=
  let action_facts := validated.facts.filter (fun f => f.fact_type == "action_item")
  if action_facts.isEmpty then [] else todos_attempts oracle 3 1

/-! ## Follow-up e-mail generator (src3/nodes/generate_email.py) -/

/-- Placeholder markers of `_validate_email` (line 115). -/
def email_placeholders : List String :=
  ["[your name]", "[recipient]", "[date]", "[name]", "[company]"]

/-- `_validate_email` (src3/nodes/generate_email.py lines 110-132). -/
def validate_email (email : FollowUpEmail) : List String :=
  let body_lower := pyLower email.body
  email_placeholders.flatMap (fun ph =>
    if containsSub ph body_lower then
      ["Contains placeholder: " ++ ph ++ " - remove all placeholders"]
    else []) ++
  (if [" if ", " might ", " may "].any (fun w => containsSub w body_lower) then
    ["Contains conditional language - remove conditionals"]
  else []) ++
  (if pyWordCount email.body < 50 then
    ["Too short (" ++ toString (pyWordCount email.body) ++ " words) - need at least 50 words"]
  else []) ++
  (if pyWordCount email.body > 300 then
    ["Too long (" ++ toString (pyWordCount email.body) ++ " words) - keep under 200 words"]
  else [])

/-- The fallback e-mail built on the final parse failure
(src3/nodes/generate_email.py lines 92-107), from the first 5 relevant
fact contents. -/
def fallback_email (relevant_facts : List ValidatedFact) : FollowUpEmail :=
  let facts_list := (relevant_facts.take 5).map (fun f => f.content)
  let body := "Following up on our meeting discussion:\n\nKey items:\n" ++
    facts_list.foldl (fun acc fact => acc ++ "- " ++ fact ++ "\n") "" ++
    "\nPlease let me know if you have any questions.\n\nBest regards"
  ⟨"Meeting Follow-Up - Action Items", body, facts_list⟩

/-- The categories an e-mail draws on (line 21). -/
def relevant_email_facts (validated : ValidatedFacts) : List ValidatedFact :=
  validated.facts.filter (fun f =>
    f.fact_type == "decision" || f.fact_type == "action_item" || f.fact_type == "deadline")

/-- The retry loop of `generate_email` (lines 46-107).  The oracle maps
an attempt number to the parsed and body-cleaned e-mail of that
attempt (`none` = invoke/parse/pydantic exception).  Returns the
e-mail list together with the number of generator invocations made. -/
def email_attempts (oracle : Nat → Option FollowUpEmail)
    (relevant : List ValidatedFact) : Nat → Nat → List FollowUpEmail × Nat
  | 0, _ => ([], 0)
  | Nat.succ fuel, attempt =>
    match oracle attempt with
    | some email =>
      if validate_email email ≠ [] ∧ fuel ≠ 0 then
        let r := email_attempts oracle relevant fuel (attempt + 1)
        (r.1, r.2 + 1)
      else ([email], 1)
    | none =>
      if fuel ≠ 0 then
        let r := email_attempts oracle relevant fuel (attempt + 1)
        (r.1, r.2 + 1)
      else ([fallback_email relevant], 1)

/-- `generate_email` (src3/nodes/generate_email.py lines 13-107):
empty result and no generator call when no decision/action_item/
deadline facts exist; otherwise up to 3 attempts ending in either a
parsed e-mail or the deterministic fallback. -/
def generate_email (validated : ValidatedFacts)
    (oracle : Nat → Option FollowUpEmail) : List FollowUpEmail × Nat :=
  let relevant := relevant_email_facts validated
  if relevant.isEmpty then ([], 0) else email_attempts oracle relevant 3 1

end Src3

/-! ## JSON values and `json.loads` (Python stdlib, as used by the nodes) -/

/-- JSON values.  Numbers keep their lexeme: no node of the pipeline
ever reads a numeric value, only strings, objects and arrays. -/
inductive Json where
  | null
  | bool (b : Bool)
  | num (lexeme : String)
  | str (s : String)
  | arr (items : List Json)
  | obj (members : List (String × Json))

/-- JSON whitespace accepted by `json.loads` between tokens. -/
def jsonWs (c : Char) : Bool :=
  c = ' ' || c = '\t' || c = '\n' || c = '\r'

/-- Characters that may occur in a number lexeme.  The lexer is more
permissive than the JSON grammar; numeric lexemes are never inspected
downstream, only their presence matters. -/
def jsonNumChar (c : Char) : Bool :=
  c.isDigit || c = '-' || c = '+' || c = '.' || c = 'e' || c = 'E'

/-- JSON string escapes (`\uXXXX` is not modelled; no tested response
uses it). -/
def jsonEscChar (c : Char) : Option Char :=
  if c = '"' then some '"'
  else if c = '\\' then some '\\'
  else if c = '/' then some '/'
  else if c = 'b' then some '\x08'
  else if c = 'f' then some '\x0c'
  else if c = 'n' then some '\n'
  else if c = 'r' then some '\r'
  else if c = 't' then some '\t'
  else none

mutual

/-- Recursive-descent JSON value parser (fuel-indexed; the fuel used by
`json_loads` always suffices). -/
def parseJValue : Nat → List Char → Except String (Json × List Char)
  | 0, _ => .error "out of fuel"
  | Nat.succ fuel, cs =>
    match cs.dropWhile jsonWs with
    | [] => .error "Expecting value"
    | c :: rest =>
      if c = '"' then
        (parseJString fuel rest).map (fun sr => (Json.str sr.1, sr.2))
      else if c = '\x7b' then
        (parseJMembers fuel true (rest.dropWhile jsonWs)).map
          (fun mr => (Json.obj mr.1, mr.2))
      else if c = '[' then
        (parseJItems fuel true (rest.dropWhile jsonWs)).map
          (fun ir => (Json.arr ir.1, ir.2))
      else if c = 't' then
        if ['r', 'u', 'e'].isPrefixOf rest then .ok (Json.bool true, rest.drop 3)
        else .error "Expecting value"
      else if c = 'f' then
        if ['a', 'l', 's', 'e'].isPrefixOf rest then .ok (Json.bool false, rest.drop 4)
        else .error "Expecting value"
      else if c = 'n' then
        if ['u', 'l', 'l'].isPrefixOf rest then .ok (Json.null, rest.drop 3)
        else .error "Expecting value"
      else if c.isDigit || c = '-' then
        .ok (Json.num ⟨(c :: rest).takeWhile jsonNumChar⟩,
             (c :: rest).dropWhile jsonNumChar)
      else .error "Expecting value"

/-- JSON string body parser, after the opening quote.  `json.loads`
rejects raw control characters inside strings (strict mode). -/
def parseJString : Nat → List Char → Except String (String × List Char)
  | 0, _ => .error "out of fuel"
  | Nat.succ fuel, cs =>
    match cs with
    | [] => .error "Unterminated string"
    | c :: rest =>
      if c = '"' then .ok ("", rest)
      else if c = '\\' then
        match rest with
        | [] => .error "Unterminated string"
        | e :: rest2 =>
          match jsonEscChar e with
          | some ce =>
            (parseJString fuel rest2).map (fun sr => (⟨ce :: sr.1.data⟩, sr.2))
          | none => .error "Invalid escape"
      else if c.toNat < 0x20 then .error "Invalid control character"
      else (parseJString fuel rest).map (fun sr => (⟨c :: sr.1.data⟩, sr.2))

/-- JSON array elements, after the opening bracket and whitespace. -/
def parseJItems : Nat → Bool → List Char → Except String (List Json × List Char)
  | 0, _, _ => .error "out of fuel"
  | Nat.succ fuel, first, cs =>
    match first, cs with
    | true, ']' :: rest => .ok ([], rest)
    | _, _ =>
      match parseJValue fuel cs with
      | .error e => .error e
      | .ok (v, rest) =>
        match rest.dropWhile jsonWs with
        | ',' :: rest2 =>
          (parseJItems fuel false rest2).map (fun ir => (v :: ir.1, ir.2))
        | ']' :: rest2 => .ok ([v], rest2)
        | _ => .error "Expecting delimiter"

/-- JSON object members, after the opening brace and whitespace. -/
def parseJMembers : Nat → Bool → List Char →
    Except String (List (String × Json) × List Char)
  | 0, _, _ => .error "out of fuel"
  | Nat.succ fuel, first, cs =>
    match first, cs with
    | true, '\x7d' :: rest => .ok ([], rest)
    | _, _ =>
      match cs.dropWhile jsonWs with
      | '"' :: rest =>
        match parseJString fuel rest with
        | .error e => .error e
        | .ok (k, rest2) =>
          match rest2.dropWhile jsonWs with
          | ':' :: rest3 =>
            match parseJValue fuel rest3 with
            | .error e => .error e
            | .ok (v, rest4) =>
              match rest4.dropWhile jsonWs with
              | ',' :: rest5 =>
                (parseJMembers fuel false rest5).map
                  (fun mr => ((k, v) :: mr.1, mr.2))
              | '\x7d' :: rest5 => .ok ([(k, v)], rest5)
              | _ => .error "Expecting delimiter"
          | _ => .error "Expecting colon"
      | _ => .error "Expecting property name"

end

/-- Python `json.loads`: parse one value, allow only trailing
whitespace. -/
def json_loads (s : String) : Except String Json :=
  match parseJValue (4 * s.data.length + 8) s.data with
  | .ok (v, rest) =>
    if rest.dropWhile jsonWs = [] then .ok v else .error "Extra data"
  | .error e => .error e

/-- Python dict lookup on a parsed JSON object: a duplicated key keeps
its last binding, as in `json.loads`. -/
def lookupField (fields : List (String × Json)) (key : String) : Option Json :=
  (fields.reverse.find? (fun kv => kv.1 == key)).map (fun kv => kv.2)

/-! ## Recovery-parse cleaning passes (shared regex idioms of the nodes) -/

/-- `re.sub(r\x27//.*?$\x27, \x27\x27, content, flags=re.MULTILINE)`:
delete from each `//` to the end of its line. -/
def stripLineComments : Nat → List Char → List Char
  | 0, cs => cs
  | Nat.succ fuel, cs =>
    match cs with
    | '/' :: '/' :: rest => stripLineComments fuel (rest.dropWhile (fun c => c ≠ '\n'))
    | c :: rest => c :: stripLineComments fuel rest
    | [] => []

/-- Position after the first `*/`, if any. -/
def findBlockClose : List Char → Option (List Char)
  | '*' :: '/' :: rest => some rest
  | _ :: rest => findBlockClose rest
  | [] => none

/-- `re.sub(r\x27/\*.*?\*/\x27, \x27\x27, content, flags=re.DOTALL)`:
delete each non-greedy `/* ... */` span; an unclosed `/*` matches
nothing and is kept. -/
def stripBlockComments : Nat → List Char → List Char
  | 0, cs => cs
  | Nat.succ fuel, cs =>
    match cs with
    | '/' :: '*' :: rest =>
      match findBlockClose rest with
      | some tail => stripBlockComments fuel tail
      | none => '/' :: '*' :: rest
    | c :: rest => c :: stripBlockComments fuel rest
    | [] => []

/-- The control characters removed by the extractor's recovery parse:
`[\x00-\x08\x0b-\x0c\x0e-\x1f\x7f-\x9f]`. -/
def isStrippedCtrl (c : Char) : Bool :=
  c.toNat ≤ 0x08 || (0x0b ≤ c.toNat && c.toNat ≤ 0x0c) ||
  (0x0e ≤ c.toNat && c.toNat ≤ 0x1f) || (0x7f ≤ c.toNat && c.toNat ≤ 0x9f)

/-- `re.sub(r\x27,(\s*[}\]])\x27, r\x27\1\x27, content)`: drop a comma
followed by optional whitespace and a closing bracket; scanning resumes
after the bracket, as `re.sub` does. -/
def fixTrailingCommas : Nat → List Char → List Char
  | 0, cs => cs
  | Nat.succ fuel, cs =>
    match cs with
    | ',' :: rest =>
      (match rest.dropWhile pySpace with
       | b :: tail =>
         if b = '\x7d' ∨ b = ']' then
           rest.takeWhile pySpace ++ b :: fixTrailingCommas fuel tail
         else ',' :: fixTrailingCommas fuel rest
       | [] => ',' :: rest)
    | c :: rest => c :: fixTrailingCommas fuel rest
    | [] => []

/-- Drop everything before the first occurrence of `c`
(`content[content.find(c):]`). -/
def fromFirst (c : Char) (cs : List Char) : List Char :=
  cs.dropWhile (fun x => x ≠ c)

/-- Keep everything up to and including the last occurrence of `c`
(`content[:content.rfind(c) + 1]`). -/
def uptoLast (c : Char) (cs : List Char) : List Char :=
  (cs.reverse.dropWhile (fun x => x ≠ c)).reverse

/-! ## Fact Extractor (src3/nodes/extract_facts.py) -/

namespace Src3

/-- The `Literal` alternatives of `ExtractedFact.fact_type`
(models.py). -/
def fact_type_enum : List String :=
  ["decision", "action_item", "open_question", "deadline", "metric"]

/-- The `Literal` alternatives of `ExtractedFact.confidence`
(models.py). -/
def confidence_enum : List String := ["high", "medium", "low"]

/-- The `ExtractedFact(...)` construction of `_parse_fact_array`
(src3/nodes/extract_facts.py lines 136-142) for one parsed item:
`item.get` defaults applied, then the pydantic `Literal` and type
checks; `none` is the swallowed per-item exception (line 143-145). -/
def mkFactOfItem (fields : List (String × Json)) (fact_type : String) :
    Option ExtractedFact :=
  match (lookupField fields "fact_type").getD (Json.str fact_type),
        (lookupField fields "content").getD (Json.str ""),
        (lookupField fields "source_quote").getD (Json.str ""),
        (lookupField fields "confidence").getD (Json.str "high"),
        (lookupField fields "context").getD Json.null with
  | Json.str ft, Json.str c, Json.str sq, Json.str conf, ctx =>
    if ft ∈ fact_type_enum ∧ conf ∈ confidence_enum then
      match ctx with
      | Json.null => some ⟨ft, c, sq, conf, none⟩
      | Json.str s => some ⟨ft, c, sq, conf, some s⟩
      | _ => none
    else none
  | _, _, _, _, _ => none

/-- Python `for item in data` over a parsed JSON value: arrays iterate
elements, objects iterate their keys, strings iterate one-character
strings, every other value raises `TypeError`. -/
def iterItems (v : Json) : Except String (List Json) :=
  match v with
  | Json.arr xs => .ok xs
  | Json.obj fields => .ok (fields.map (fun kv => Json.str kv.1))
  | Json.str s => .ok (s.data.map (fun c => Json.str ⟨[c]⟩))
  | _ => .error "TypeError: not iterable"

/-- `_parse_fact_array` (src3/nodes/extract_facts.py lines 100-147):
strip, markdown-fence removal, bracket isolation, comment and control
character stripping, trailing-comma repair, `json.loads`, then item
conversion with non-dict items and pydantic failures skipped.
`Except.error` is the exception propagated to the retry loop. -/
def parse_fact_array (content : String) (fact_type : String) :
    Except String (List ExtractedFact) :=
  let cs1 := (pyStrip content).data
  let cs2 :=
    if subList "```".data cs1 then
      match pySplitOnAux "```".data (cs1.length + 1) [] cs1 with
      | _ :: p :: _ =>
        if "json".data.isPrefixOf p then p.drop 4 else p
      | _ => cs1
    else cs1
  let cs3 := if cs2.contains '[' then fromFirst '[' cs2 else cs2
  let cs4 := if cs3.contains ']' then uptoLast ']' cs3 else cs3
  let cs5 := stripLineComments (cs4.length + 1) cs4
  let cs6 := stripBlockComments (cs5.length + 1) cs5
  let cs7 := cs6.filter (fun c => !isStrippedCtrl c)
  let cs8 := fixTrailingCommas (cs7.length + 1) cs7
  let cs9 := (pyStrip ⟨cs8⟩).data
  if cs9 = [] ∨ cs9 = "[]".data then .ok []
  else
    match json_loads ⟨cs9⟩ with
    | .error e => .error e
    | .ok v =>
      match iterItems v with
      | .error e => .error e
      | .ok items =>
        .ok (items.filterMap (fun item =>
          match item with
          | Json.obj fields => mkFactOfItem fields fact_type
          | _ => none))

/-- The retry loop of `_extract_fact_type` (src3/nodes/extract_facts.py
lines 86-97).  The oracle maps an attempt number to the generator
response text (`none` = a raised invoke exception).  Returns the fact
list together with the number of generator invocations; the fuel
argument counts the attempts still available including the current one
(`fuel > 1` iff `attempt < max_retries`). -/
def extract_attempts (oracle : Nat → Option String) (fact_type : String) :
    Nat → Nat → List ExtractedFact × Nat
  | 0, _ => ([], 0)
  | Nat.succ fuel, attempt =>
    match oracle attempt with
    | some content =>
      match parse_fact_array content fact_type with
      | .ok facts => (facts, 1)
      | .error _ =>
        if fuel ≠ 0 then
          let r := extract_attempts oracle fact_type fuel (attempt + 1)
          (r.1, r.2 + 1)
        else ([], 1)
    | none =>
      if fuel ≠ 0 then
        let r := extract_attempts oracle fact_type fuel (attempt + 1)
        (r.1, r.2 + 1)
      else ([], 1)

/-- `_extract_fact_type` (src3/nodes/extract_facts.py lines 53-97) with
`max_retries = 3`. -/
def extract_fact_type (oracle : Nat → Option String) (fact_type : String) :
    List ExtractedFact × Nat :=
  extract_attempts oracle fact_type 3 1

/-- One attempt fails when the generator raises or its response does
not survive the recovery parse. -/
def attempt_fails (oracle : Nat → Option String) (fact_type : String)
    (i : Nat) : Prop :=
  oracle i = none ∨
    ∃ c e, oracle i = some c ∧ parse_fact_array c fact_type = Except.error e

end Src3

/-! ## Concrete test inputs -/

/-- A fact surviving both validators. -/
def sampleGoodFact : ExtractedFact :=
  ⟨"metric", "raised 3.5M dollars", "we raised 3.5M dollars", "high", none⟩

/-- A fact whose source quote is a single word of five characters. -/
def sampleShortQuoteFact : ExtractedFact :=
  ⟨"metric", "raised 3.5M in funding", "hello", "high", none⟩

/-- A fact whose source quote has fewer than five characters. -/
def sampleTinyQuoteFact : ExtractedFact :=
  ⟨"metric", "tiny quote", "ok", "high", none⟩

/-- An action item with explicit commitment language. -/
def sampleActionFact : ExtractedFact :=
  ⟨"action_item", "run manual test Thursday",
   "I will run a manual test this Thursday", "high", none⟩

/-- An action item without any commitment marker in its quote. -/
def sampleNoCommitFact : ExtractedFact :=
  ⟨"action_item", "update the docs maybe",
   "we should probably update the docs", "high", none⟩

/-- Extracted facts holding one action item and one metric. -/
def sampleExtracted : ExtractedFacts :=
  ⟨[], [sampleActionFact], [], [], [sampleGoodFact]⟩

/-- Extracted facts holding only the one-word-quote metric. -/
def sampleShortExtracted : ExtractedFacts :=
  ⟨[], [], [], [], [sampleShortQuoteFact]⟩

/-- An e-mail without any source facts and without brackets. -/
def sampleEmailNoSources : FollowUpEmail :=
  ⟨"Meeting Follow-Up", "Thanks for the meeting. Best regards", []⟩

/-- An output bundle whose only artifact is that e-mail. -/
def sampleOutputsEmailOnly : MeetingOutputs :=
  ⟨"Summary", [], [], [sampleEmailNoSources], 3, 2, 1⟩

/-- An output bundle with an action point lacking source facts. -/
def sampleOutputsMissingAp : MeetingOutputs :=
  ⟨"Summary", [⟨"Do the thing", "High", []⟩], [], [], 3, 2, 1⟩

/-- A validated fact set holding one metric fact. -/
def sampleValidatedFacts : ValidatedFacts :=
  ⟨[Src3.mkValidated sampleGoodFact], 0, []⟩

/-- A validated fact set holding one action item. -/
def sampleValidatedAction : ValidatedFacts :=
  ⟨[Src3.mkValidated sampleActionFact], 0, []⟩

/-- A to-do whose deadline is the sentinel string "Not specified". -/
def sampleSentinelTodo : ToDo :=
  ⟨"Send report", some "Not specified", "High", ["send report fact"]⟩

/-- A to-do whose deadline is a genuine time expression mentioning the
verb "review". -/
def sampleReviewTodo : ToDo :=
  ⟨"Prepare slides", some "before the design review", "High",
   ["prepare slides fact"]⟩

/-- A well-formed to-do that the repair step leaves untouched. -/
def sampleFridayTodo : ToDo :=
  ⟨"Prepare slides", some "Friday", "High", ["prepare slides fact"]⟩

/-- A to-do generator oracle answering every attempt with one clean
to-do. -/
def sampleTodoOracle : Nat → Option (List ToDo) := fun _ => some [sampleFridayTodo]

/-- An e-mail generator oracle that raises on every attempt. -/
def sampleEmailFailOracle : Nat → Option FollowUpEmail := fun _ => none

/-- An extractor oracle whose responses never parse. -/
def sampleExtractFailOracle : Nat → Option String :=
  fun _ => some "I could not find any facts."

/-- The fenced trailing-comma generator response of the recovery-parse
scenario. -/
def c5_response : String :=
  "```json\n[\x7b\"fact_type\":\"metric\",\"content\":\"$3.5M raised\",\"source_quote\":\"we raised $3.5M\",\x7d,]\n```"

/-- A generator response for a `metric` extraction call whose single
item claims `fact_type` `decision`. -/
def c1_response : String :=
  "[\x7b\"fact_type\": \"decision\", \"content\": \"ship friday\", \"source_quote\": \"we will ship on friday\"\x7d]"

/-- Parsed item fields carrying an explicit valid `fact_type`. -/
def c1_item_fields : List (String × Json) :=
  [("fact_type", Json.str "decision"), ("content", Json.str "ship friday"),
   ("source_quote", Json.str "we will ship on friday")]

/-- Parsed item fields with no `fact_type` key. -/
def c1_absent_fields : List (String × Json) :=
  [("content", Json.str "standup at nine")]

/-! ## Validator lemmas -/

namespace Src3

theorem validateList_mem_src3 (l : List ExtractedFact) :
    ∀ f ∈ (validateList l).1, ∃ g ∈ l,
      (validate_single_fact g).1 = true ∧ f = mkValidated g := by
  induction l with
  | nil => intro f hf; simp [validateList] at hf
  | cons a rest ih =>
    intro f hf
    simp only [validateList] at hf
    split at hf
    · rcases List.mem_cons.mp hf with h | h
      · exact ⟨a, List.mem_cons_self a rest, by assumption, h⟩
      · obtain ⟨g, hg, hv, he⟩ := ih f h
        exact ⟨g, List.mem_cons_of_mem a hg, hv, he⟩
    · obtain ⟨g, hg, hv, he⟩ := ih f hf
      exact ⟨g, List.mem_cons_of_mem a hg, hv, he⟩

theorem valid_fact_quote_long (g : ExtractedFact)
    (h : (validate_single_fact g).1 = true) :
    g.source_quote ≠ "" ∧ 5 ≤ pyLen g.source_quote := by
  unfold validate_single_fact at h
  by_cases h1 : g.source_quote = "" ∨ pyLen g.source_quote < 5
  · rw [if_pos h1] at h; simp at h
  · push_neg at h1
    exact h1

theorem valid_action_item_commitment (g : ExtractedFact)
    (h : (validate_single_fact g).1 = true)
    (ha : g.fact_type = "action_item") :
    commitment_words.any
      (fun w => containsSub w (pyLower g.source_quote)) = true := by
  unfold validate_single_fact at h
  by_cases h3 : g.fact_type = "action_item" ∧
      ¬ commitment_words.any
        (fun w => containsSub w (pyLower g.source_quote)) = true
  · by_cases h1 : g.source_quote = "" ∨ pyLen g.source_quote < 5
    · rw [if_pos h1] at h; simp at h
    · rw [if_neg h1] at h
      by_cases h2 : conditional_patterns.any
          (fun p => containsSub p (pyLower g.content) ||
            containsSub p (pyLower g.source_quote)) = true
      · rw [if_pos h2] at h; simp at h
      · rw [if_neg h2, if_pos h3] at h; simp at h
  · by_contra hc
    exact h3 ⟨ha, hc⟩

end Src3

namespace Src2

theorem validateList_mem_src2 (l : List ExtractedFact) :
    ∀ f ∈ (validateList l).1, ∃ g ∈ l,
      rejectReason g = none ∧ f = mkValidated g := by
  induction l with
  | nil => intro f hf; simp [validateList] at hf
  | cons a rest ih =>
    intro f hf
    simp only [validateList] at hf
    split at hf
    next r heq =>
      obtain ⟨g, hg, hv, he⟩ := ih f hf
      exact ⟨g, List.mem_cons_of_mem a hg, hv, he⟩
    next heq =>
      rcases List.mem_cons.mp hf with h | h
      · exact ⟨a, List.mem_cons_self a rest, heq, h⟩
      · obtain ⟨g, hg, hv, he⟩ := ih f h
        exact ⟨g, List.mem_cons_of_mem a hg, hv, he⟩

theorem kept_fact_quote_three_words (g : ExtractedFact)
    (h : rejectReason g = none) : 3 ≤ pyWordCount g.source_quote := by
  unfold rejectReason at h
  by_cases h1 : g.confidence = "low" ∧
      (g.fact_type = "decision" ∨ g.fact_type = "action_item")
  · rw [if_pos h1] at h; simp at h
  · rw [if_neg h1] at h
    by_cases h2 : pyWordCount g.source_quote < 3
    · rw [if_pos h2] at h; simp at h
    · exact le_of_not_lt h2

theorem kept_action_item_commitment (g : ExtractedFact)
    (h : rejectReason g = none) (ha : g.fact_type = "action_item") :
    (commitment_words.any
      (fun w => containsSub w (pyLower g.source_quote)) ||
     imperative_verbs.any
      (fun w => containsSub w (pyLower g.source_quote))) = true := by
  unfold rejectReason at h
  by_cases h4 : g.fact_type = "action_item" ∧
      ¬ commitment_words.any
        (fun w => containsSub w (pyLower g.source_quote)) = true ∧
      ¬ imperative_verbs.any
        (fun w => containsSub w (pyLower g.source_quote)) = true
  · by_cases h1 : g.confidence = "low" ∧
        (g.fact_type = "decision" ∨ g.fact_type = "action_item")
    · rw [if_pos h1] at h; simp at h
    · rw [if_neg h1] at h
      by_cases h2 : pyWordCount g.source_quote < 3
      · rw [if_pos h2] at h; simp at h
      · rw [if_neg h2] at h
        by_cases h3 : (generic_phrases.any
              (fun p => containsSub p (pyLower g.content))) = true ∧
            g.confidence ≠ "high"
        · rw [if_pos h3] at h; simp at h
        · rw [if_neg h3, if_pos h4] at h; simp at h
  · by_contra hc
    rw [Bool.or_eq_true] at hc
    push_neg at hc
    exact h4 ⟨ha, hc.1, hc.2⟩

theorem rejected_short_quote_has_reason (g : ExtractedFact)
    (h : pyWordCount g.source_quote < 3) : (rejectReason g).isSome = true := by
  unfold rejectReason
  by_cases h1 : g.confidence = "low" ∧
      (g.fact_type = "decision" ∨ g.fact_type = "action_item")
  · rw [if_pos h1]; rfl
  · rw [if_neg h1, if_pos h]; rfl

end Src2

/-! ## Generic list fact -/

theorem isEmpty_false_of_mem {α : Type} {a : α} {l : List α} (h : a ∈ l) :
    l.isEmpty = false := by
  cases l with
  | nil => simp at h
  | cons x xs => rfl

/-! ## Claim theorems -/

/-- C7: the Fact Validator is pure and deterministic: two runs on the
same extracted facts produce the identical validated fact list (in
extraction order), the identical discarded count and the identical
reason strings.  Purity is visible in the embedding's type: unlike the
generator stages, `Src3.validate_facts` takes no oracle argument, as
the source function never calls the generator. -/
theorem validate_facts_idempotent (efs efs' : ExtractedFacts) (h : efs = efs') :
    Src3.validate_facts efs = Src3.validate_facts efs' ∧
    (Src3.validate_facts efs).facts = (Src3.validate_facts efs').facts ∧
    (Src3.validate_facts efs).discarded_count =
      (Src3.validate_facts efs').discarded_count ∧
    (Src3.validate_facts efs).discarded_reasons =
      (Src3.validate_facts efs').discarded_reasons := by
  subst h
  exact ⟨rfl, rfl, rfl, rfl⟩

/-- C7 witness: the determinism theorem applied to a concrete fact
set. -/
theorem validate_facts_idempotent_witness :
    Src3.validate_facts sampleExtracted = Src3.validate_facts sampleExtracted ∧
    (Src3.validate_facts sampleExtracted).facts =
      (Src3.validate_facts sampleExtracted).facts ∧
    (Src3.validate_facts sampleExtracted).discarded_count =
      (Src3.validate_facts sampleExtracted).discarded_count ∧
    (Src3.validate_facts sampleExtracted).discarded_reasons =
      (Src3.validate_facts sampleExtracted).discarded_reasons :=
  validate_facts_idempotent sampleExtracted sampleExtracted rfl

/-- C3 counterexample: the src3 validator keeps a fact whose source
quote is the single word "hello" (5 characters), so a quote of fewer
than 3 words is not discarded: its length rule counts characters, not
words. -/
theorem one_word_quote_survives_src3 :
    pyWordCount sampleShortQuoteFact.source_quote = 1 ∧
    Src3.mkValidated sampleShortQuoteFact ∈
      (Src3.validate_facts sampleShortExtracted).facts := by
  exact ⟨by decide, by decide⟩

/-- C3 amended: the src2 validator discards quotes of fewer than 3
words (every fact in its validated output has at least 3 words, and a
short-quote fact always draws a recorded reason); the src3 validator
instead requires a non-empty quote of at least 5 characters and rejects
shorter ones with a "Missing source quote" reason. -/
theorem validator_short_quote_rules (efs2 efs3 : ExtractedFacts) :
    (∀ f ∈ (Src2.validate_facts efs2).facts, 3 ≤ pyWordCount f.source_quote) ∧
    (∀ g : ExtractedFact, pyWordCount g.source_quote < 3 →
      (Src2.rejectReason g).isSome = true) ∧
    (∀ f ∈ (Src3.validate_facts efs3).facts,
      f.source_quote ≠ "" ∧ 5 ≤ pyLen f.source_quote) ∧
    (∀ g : ExtractedFact, pyLen g.source_quote < 5 →
      Src3.validate_single_fact g =
        (false, some ("Missing source quote: " ++ pyTake 50 g.content))) := by
  refine ⟨?_, ?_, ?_, ?_⟩
  · intro f hf
    obtain ⟨g, _, hv, he⟩ := Src2.validateList_mem_src2 _ f hf
    rw [he]
    exact Src2.kept_fact_quote_three_words g hv
  · exact fun g h => Src2.rejected_short_quote_has_reason g h
  · intro f hf
    obtain ⟨g, _, hv, he⟩ := Src3.validateList_mem_src3 _ f hf
    rw [he]
    exact Src3.valid_fact_quote_long g hv
  · intro g h
    unfold Src3.validate_single_fact
    rw [if_pos (Or.inr h)]

/-- C3 witness: the amended rules applied to concrete facts. -/
theorem validator_short_quote_rules_witness :
    3 ≤ pyWordCount (Src2.mkValidated sampleGoodFact).source_quote ∧
    (Src2.rejectReason sampleShortQuoteFact).isSome = true ∧
    (5 ≤ pyLen (Src3.mkValidated sampleGoodFact).source_quote) ∧
    Src3.validate_single_fact sampleTinyQuoteFact =
      (false, some ("Missing source quote: " ++
        pyTake 50 sampleTinyQuoteFact.content)) := by
  refine ⟨?_, ?_, ?_, ?_⟩
  · exact (validator_short_quote_rules sampleExtracted sampleExtracted).1
      (Src2.mkValidated sampleGoodFact) (by decide)
  · exact (validator_short_quote_rules sampleExtracted sampleExtracted).2.1
      sampleShortQuoteFact (by decide)
  · exact ((validator_short_quote_rules sampleExtracted sampleExtracted).2.2.1
      (Src3.mkValidated sampleGoodFact) (by decide)).2
  · exact (validator_short_quote_rules sampleExtracted sampleExtracted).2.2.2
      sampleTinyQuoteFact (by decide)

/-- C6: every validated action-item fact carries a commitment or
imperative marker in its source quote (in src3 one list serves both
roles; in src2 two lists do), and an action item that reaches the
commitment rule without one is rejected with the "No clear commitment"
reason. -/
theorem action_item_commitment_invariant (efs3 efs2 : ExtractedFacts) :
    (∀ f ∈ (Src3.validate_facts efs3).facts, f.fact_type = "action_item" →
      Src3.commitment_words.any
        (fun w => containsSub w (pyLower f.source_quote)) = true) ∧
    (∀ f ∈ (Src2.validate_facts efs2).facts, f.fact_type = "action_item" →
      (Src2.commitment_words.any
        (fun w => containsSub w (pyLower f.source_quote)) ||
       Src2.imperative_verbs.any
        (fun w => containsSub w (pyLower f.source_quote))) = true) ∧
    (∀ g : ExtractedFact, g.fact_type = "action_item" →
      ¬ (g.source_quote = "" ∨ pyLen g.source_quote < 5) →
      ¬ Src3.conditional_patterns.any (fun p =>
          containsSub p (pyLower g.content) ||
          containsSub p (pyLower g.source_quote)) = true →
      ¬ Src3.commitment_words.any
          (fun w => containsSub w (pyLower g.source_quote)) = true →
      Src3.validate_single_fact g =
        (false, some ("No clear commitment: " ++ pyTake 50 g.content))) := by
  refine ⟨?_, ?_, ?_⟩
  · intro f hf ha
    obtain ⟨g, _, hv, he⟩ := Src3.validateList_mem_src3 _ f hf
    subst he
    exact Src3.valid_action_item_commitment g hv ha
  · intro f hf ha
    obtain ⟨g, _, hv, he⟩ := Src2.validateList_mem_src2 _ f hf
    subst he
    exact Src2.kept_action_item_commitment g hv ha
  · intro g ha h1 h2 h3
    unfold Src3.validate_single_fact
    rw [if_neg h1, if_neg h2, if_pos ⟨ha, h3⟩]

/-- C6 witness: the invariant applied to a concrete validated action
item and the rejection applied to a concrete uncommitted one. -/
theorem action_item_commitment_invariant_witness :
    Src3.commitment_words.any (fun w =>
      containsSub w (pyLower (Src3.mkValidated sampleActionFact).source_quote)) = true ∧
    (Src2.commitment_words.any (fun w =>
      containsSub w (pyLower (Src2.mkValidated sampleActionFact).source_quote)) ||
     Src2.imperative_verbs.any (fun w =>
      containsSub w (pyLower (Src2.mkValidated sampleActionFact).source_quote))) = true ∧
    Src3.validate_single_fact sampleNoCommitFact =
      (false, some ("No clear commitment: " ++
        pyTake 50 sampleNoCommitFact.content)) := by
  refine ⟨?_, ?_, ?_⟩
  · exact (action_item_commitment_invariant sampleExtracted sampleExtracted).1
      (Src3.mkValidated sampleActionFact) (by decide) (by decide)
  · exact (action_item_commitment_invariant sampleExtracted sampleExtracted).2.1
      (Src2.mkValidated sampleActionFact) (by decide) (by decide)
  · exact (action_item_commitment_invariant sampleExtracted sampleExtracted).2.2
      sampleNoCommitFact (by decide) (by decide) (by decide) (by decide)

/-- C2 counterexample: an output bundle whose only artifact is an
e-mail with an empty `source_facts` list passes the compliance check
with no issue recorded: e-mails are only checked for bracket
placeholders, not for missing source facts. -/
theorem email_empty_sources_passes_compliance :
    sampleEmailNoSources.source_facts = [] ∧
    Src3.compliance_check (some sampleOutputsEmailOnly)
      (some sampleValidatedFacts) = (true, []) := by
  exact ⟨rfl, rfl⟩

/-- C2 amended: an empty `source_facts` list on any ActionPoint or ToDo
makes the compliance check record an issue and fail; FollowUpEmails are
not subject to that check (see the counterexample). -/
theorem compliance_missing_sources_fails (outs : MeetingOutputs)
    (v : ValidatedFacts)
    (h : (∃ ap ∈ outs.action_points, ap.source_facts = []) ∨
         (∃ td ∈ outs.todos, td.source_facts = [])) :
    (Src3.compliance_check (some outs) (some v)).1 = false ∧
    (Src3.compliance_check (some outs) (some v)).2 ≠ [] := by
  have hmem : ∃ s, s ∈ Src3.compliance_issues outs := by
    rcases h with ⟨ap, hap, hsf⟩ | ⟨td, htd, hsf⟩
    · refine ⟨"Action point missing source_facts: " ++ pyTake 50 ap.description, ?_⟩
      unfold Src3.compliance_issues
      apply List.mem_append_left
      apply List.mem_append_left
      exact List.mem_flatMap.mpr
        ⟨ap, hap, by rw [if_pos hsf]; exact List.mem_singleton_self _⟩
    · refine ⟨"Todo missing source_facts: " ++ pyTake 50 td.task, ?_⟩
      unfold Src3.compliance_issues
      apply List.mem_append_left
      apply List.mem_append_right
      refine List.mem_flatMap.mpr ⟨td, htd, ?_⟩
      apply List.mem_append_left
      rw [if_pos hsf]
      exact List.mem_singleton_self _
  obtain ⟨s, hs⟩ := hmem
  constructor
  · exact isEmpty_false_of_mem hs
  · exact fun hnil => (List.ne_nil_of_mem hs) hnil

/-- C2 witness: the amended claim applied to a bundle with an action
point lacking source facts. -/
theorem compliance_missing_sources_fails_witness :
    (Src3.compliance_check (some sampleOutputsMissingAp)
      (some sampleValidatedFacts)).1 = false ∧
    (Src3.compliance_check (some sampleOutputsMissingAp)
      (some sampleValidatedFacts)).2 ≠ [] :=
  compliance_missing_sources_fails sampleOutputsMissingAp sampleValidatedFacts
    (Or.inl ⟨⟨"Do the thing", "High", []⟩, by decide, rfl⟩)

/-- C5: the recovery parse of the markdown-fenced, trailing-comma
response yields exactly one metric fact with the stated content and
source quote. -/
theorem recovery_parse_fenced_trailing_comma :
    Src3.parse_fact_array c5_response "metric" =
      Except.ok [⟨"metric", "$3.5M raised", "we raised $3.5M", "high", none⟩] :=
  rfl

/-! ## To-do repair lemmas -/

namespace Src3

theorem fix_verb_deadline_some (u : ToDo) (d : String)
    (h : (fix_verb_deadline u).deadline = some d) : u.deadline = some d := by
  unfold fix_verb_deadline at h
  split at h
  next e heq =>
    by_cases hc : e ≠ "" ∧
        deadline_task_verbs.any (fun vb => containsSub vb (pyLower e)) = true
    · rw [if_pos hc] at h
      exact absurd h (by simp)
    · rw [if_neg hc] at h
      exact h
  next heq => exact h

theorem fix_sentinel_deadline_not_sentinel (t : ToDo) (d : String)
    (h : (fix_sentinel_deadline t).deadline = some d) :
    pyLower d ∉ deadline_sentinels := by
  unfold fix_sentinel_deadline at h
  split at h
  next e heq =>
    by_cases hc : e ≠ "" ∧ pyLower e ∈ deadline_sentinels
    · rw [if_pos hc] at h
      exact absurd h (by simp)
    · rw [if_neg hc, heq] at h
      have hde : e = d := by injection h
      subst hde
      push_neg at hc
      by_cases he : e = ""
      · subst he
        decide
      · exact hc he
  next heq =>
    rw [heq] at h
    exact absurd h (by simp)

theorem fix_todo_item_no_sentinel (t : ToDo) (d : String)
    (h : (fix_todo_item t).deadline = some d) :
    pyLower d ∉ deadline_sentinels := by
  unfold fix_todo_item at h
  exact fix_sentinel_deadline_not_sentinel _ d (fix_verb_deadline_some _ d h)

theorem todos_attempts_shape (oracle : Nat → Option (List ToDo)) :
    ∀ fuel attempt, todos_attempts oracle fuel attempt = [] ∨
      ∃ raw, todos_attempts oracle fuel attempt = fix_common_issues raw := by
  intro fuel
  induction fuel with
  | zero => intro _; left; rfl
  | succ n ih =>
    intro attempt
    cases ho : oracle attempt with
    | some raw =>
      simp only [todos_attempts, ho]
      by_cases hc : validate_todos (fix_common_issues raw) ≠ [] ∧ n ≠ 0
      · rw [if_pos hc]
        exact ih (attempt + 1)
      · rw [if_neg hc]
        right
        exact ⟨raw, rfl⟩
    | none =>
      simp only [todos_attempts, ho]
      by_cases hc : n ≠ 0
      · rw [if_pos hc]
        exact ih (attempt + 1)
      · rw [if_neg hc]
        left
        rfl

end Src3

/-- C4: a to-do list returned by the generator never carries a deadline
that equals (case-insensitively) one of the sentinel strings standing
in for absence; the repair step coerces a sentinel deadline to a true
null and leaves task, priority and source facts unchanged. -/
theorem todos_no_sentinel_deadline (v : ValidatedFacts)
    (oracle : Nat → Option (List ToDo)) :
    (∀ td ∈ Src3.generate_todos v oracle, ∀ d, td.deadline = some d →
      pyLower d ∉ Src3.deadline_sentinels) ∧
    (∀ t : ToDo, ∀ d, t.deadline = some d → d ≠ "" →
      pyLower d ∈ Src3.deadline_sentinels →
      Src3.fix_todo_item t = ⟨t.task, none, t.priority, t.source_facts⟩) := by
  constructor
  · intro td htd d hd
    simp only [Src3.generate_todos] at htd
    split at htd
    · simp at htd
    · rcases Src3.todos_attempts_shape oracle 3 1 with hsh | ⟨raw, hsh⟩
      · rw [hsh] at htd
        simp at htd
      · rw [hsh] at htd
        simp only [Src3.fix_common_issues] at htd
        obtain ⟨t, _, ht⟩ := List.mem_map.mp htd
        rw [← ht] at hd
        exact Src3.fix_todo_item_no_sentinel t d hd
  · intro t d hd hne hmem
    simp only [Src3.fix_todo_item, Src3.fix_sentinel_deadline, hd]
    rw [if_pos ⟨hne, hmem⟩]
    unfold Src3.fix_verb_deadline
    rfl

/-- C4 witness: a surviving genuine deadline is no sentinel, and the
sentinel to-do is repaired to a null deadline with the other fields
kept. -/
theorem todos_no_sentinel_deadline_witness :
    pyLower "Friday" ∉ Src3.deadline_sentinels ∧
    Src3.fix_todo_item sampleSentinelTodo =
      ⟨sampleSentinelTodo.task, none, sampleSentinelTodo.priority,
       sampleSentinelTodo.source_facts⟩ := by
  refine ⟨?_, ?_⟩
  · exact (todos_no_sentinel_deadline sampleValidatedAction sampleTodoOracle).1
      sampleFridayTodo (by decide) "Friday" rfl
  · exact (todos_no_sentinel_deadline sampleValidatedAction sampleTodoOracle).2
      sampleSentinelTodo "Not specified" rfl (by decide) (by decide)

/-- C9: the repair step maps each to-do independently, and any non-null
deadline containing one of the task verbs (run, send, schedule, reach,
upload, complete, review — case-insensitively) is replaced by null
while task, priority and source facts stay unchanged, even when the
deadline is a genuine time expression. -/
theorem repair_nulls_verb_deadlines (todos : List ToDo) (t : ToDo) (d : String)
    (hd : t.deadline = some d)
    (hverb : Src3.deadline_task_verbs.any
      (fun vb => containsSub vb (pyLower d)) = true) :
    Src3.fix_common_issues todos = todos.map Src3.fix_todo_item ∧
    Src3.fix_todo_item t = ⟨t.task, none, t.priority, t.source_facts⟩ := by
  refine ⟨rfl, ?_⟩
  have hne : d ≠ "" := by
    intro he
    subst he
    revert hverb
    decide
  have hnots : pyLower d ∉ Src3.deadline_sentinels := by
    intro hmem
    simp only [Src3.deadline_sentinels, List.mem_cons,
      List.not_mem_nil, or_false] at hmem
    rcases hmem with h | h | h | h | h <;>
      (rw [h] at hverb; exact absurd hverb (by decide))
  have hsent : Src3.fix_sentinel_deadline t = t := by
    simp only [Src3.fix_sentinel_deadline, hd]
    rw [if_neg (fun hc => hnots hc.2)]
  unfold Src3.fix_todo_item
  rw [hsent]
  simp only [Src3.fix_verb_deadline, hd]
  rw [if_pos ⟨hne, hverb⟩]

/-- C9 witness: "before the design review" is a genuine time expression
but contains "review", so the repair nulls it. -/
theorem repair_nulls_verb_deadlines_witness :
    Src3.fix_common_issues [sampleReviewTodo] =
      [sampleReviewTodo].map Src3.fix_todo_item ∧
    Src3.fix_todo_item sampleReviewTodo =
      ⟨sampleReviewTodo.task, none, sampleReviewTodo.priority,
       sampleReviewTodo.source_facts⟩ :=
  repair_nulls_verb_deadlines [sampleReviewTodo] sampleReviewTodo
    "before the design review" rfl (by decide)

/-! ## E-mail loop lemmas -/

namespace Src3

theorem email_attempts_len (oracle : Nat → Option FollowUpEmail)
    (relevant : List ValidatedFact) :
    ∀ fuel attempt, fuel ≠ 0 →
      (email_attempts oracle relevant fuel attempt).1.length = 1 := by
  intro fuel
  induction fuel with
  | zero => intro _ h; exact absurd rfl h
  | succ n ih =>
    intro attempt _
    cases ho : oracle attempt with
    | some email =>
      simp only [email_attempts, ho]
      by_cases hc : validate_email email ≠ [] ∧ n ≠ 0
      · rw [if_pos hc]
        exact ih (attempt + 1) hc.2
      · rw [if_neg hc]
        rfl
    | none =>
      simp only [email_attempts, ho]
      by_cases hc : n ≠ 0
      · rw [if_pos hc]
        exact ih (attempt + 1) hc
      · rw [if_neg hc]
        rfl

theorem email_attempts_all_fail (oracle : Nat → Option FollowUpEmail)
    (relevant : List ValidatedFact) (hfail : ∀ i, oracle i = none) :
    ∀ fuel attempt, fuel ≠ 0 →
      email_attempts oracle relevant fuel attempt =
        ([fallback_email relevant], fuel) := by
  intro fuel
  induction fuel with
  | zero => intro _ h; exact absurd rfl h
  | succ n ih =>
    intro attempt _
    simp only [email_attempts, hfail attempt]
    by_cases hc : n ≠ 0
    · rw [if_pos hc, ih (attempt + 1) hc]
    · rw [if_neg hc]
      have hn : n = 0 := by omega
      subst hn
      rfl

end Src3

/-- C10: the e-mail stage returns at most one e-mail; the empty list
arises exactly when the validated set has no decision, action-item or
deadline fact, and then no generator call is made; when every attempt
raises or fails to parse, the stage returns the deterministic fallback
e-mail, whose source facts are the contents of at most 5 relevant
validated facts. -/
theorem email_stage_at_most_one (v : ValidatedFacts)
    (oracle : Nat → Option FollowUpEmail) :
    (Src3.generate_email v oracle).1.length ≤ 1 ∧
    ((Src3.generate_email v oracle).1 = [] ↔ Src3.relevant_email_facts v = []) ∧
    (Src3.relevant_email_facts v = [] → (Src3.generate_email v oracle).2 = 0) ∧
    (Src3.relevant_email_facts v ≠ [] → (∀ i, oracle i = none) →
      (Src3.generate_email v oracle).1 =
        [Src3.fallback_email (Src3.relevant_email_facts v)] ∧
      (Src3.fallback_email (Src3.relevant_email_facts v)).source_facts =
        ((Src3.relevant_email_facts v).take 5).map (fun f => f.content) ∧
      (((Src3.relevant_email_facts v).take 5).map
        (fun f => f.content)).length ≤ 5) := by
  by_cases hrel : Src3.relevant_email_facts v = []
  · have hie : (Src3.relevant_email_facts v).isEmpty = true := by
      rw [hrel]; rfl
    have hge : Src3.generate_email v oracle = ([], 0) := by
      simp only [Src3.generate_email]
      rw [if_pos hie]
    rw [hge]
    refine ⟨by simp, ⟨fun _ => hrel, fun _ => rfl⟩, fun _ => rfl, ?_⟩
    intro hne
    exact absurd hrel hne
  · obtain ⟨x, hx⟩ := List.exists_mem_of_ne_nil _ hrel
    have hie : (Src3.relevant_email_facts v).isEmpty = false :=
      isEmpty_false_of_mem hx
    have hge : Src3.generate_email v oracle =
        Src3.email_attempts oracle (Src3.relevant_email_facts v) 3 1 := by
      simp only [Src3.generate_email]
      rw [if_neg (fun hc => by rw [hie] at hc; exact Bool.false_ne_true hc)]
    rw [hge]
    have hlen := Src3.email_attempts_len oracle (Src3.relevant_email_facts v)
      3 1 (by decide)
    refine ⟨le_of_eq hlen, ⟨?_, fun h => absurd h hrel⟩, fun h => absurd h hrel, ?_⟩
    · intro hnil
      rw [hnil] at hlen
      simp at hlen
    · intro _ hfail
      rw [Src3.email_attempts_all_fail oracle _ hfail 3 1 (by decide)]
      refine ⟨rfl, rfl, ?_⟩
      have := List.length_take 5 (Src3.relevant_email_facts v)
      simp only [List.length_map, this]
      omega

/-- C10 witness: the theorem applied to a metric-only fact set (no
e-mail, no call) and to an action-item fact set with a generator that
always raises (fallback e-mail). -/
theorem email_stage_at_most_one_witness :
    (Src3.generate_email sampleValidatedFacts sampleEmailFailOracle).1 = [] ∧
    (Src3.generate_email sampleValidatedFacts sampleEmailFailOracle).2 = 0 ∧
    (Src3.generate_email sampleValidatedAction sampleEmailFailOracle).1 =
      [Src3.fallback_email (Src3.relevant_email_facts sampleValidatedAction)] := by
  refine ⟨?_, ?_, ?_⟩
  · exact (email_stage_at_most_one sampleValidatedFacts
      sampleEmailFailOracle).2.1.mpr (by decide)
  · exact (email_stage_at_most_one sampleValidatedFacts
      sampleEmailFailOracle).2.2.1 (by decide)
  · exact ((email_stage_at_most_one sampleValidatedAction
      sampleEmailFailOracle).2.2.2 (by decide) (fun _ => rfl)).1

/-! ## Extractor retry lemmas -/

namespace Src3

theorem extract_attempts_count_le (oracle : Nat → Option String)
    (ft : String) : ∀ fuel attempt,
    (extract_attempts oracle ft fuel attempt).2 ≤ fuel := by
  intro fuel
  induction fuel with
  | zero => intro _; exact Nat.le_refl 0
  | succ n ih =>
    intro attempt
    cases ho : oracle attempt with
    | some c =>
      cases hp : parse_fact_array c ft with
      | ok facts =>
        simp only [extract_attempts, ho, hp]
        omega
      | error e =>
        simp only [extract_attempts, ho, hp]
        by_cases hc : n ≠ 0
        · rw [if_pos hc]
          exact Nat.succ_le_succ (ih (attempt + 1))
        · rw [if_neg hc]
          omega
    | none =>
      simp only [extract_attempts, ho]
      by_cases hc : n ≠ 0
      · rw [if_pos hc]
        exact Nat.succ_le_succ (ih (attempt + 1))
      · rw [if_neg hc]
        omega

theorem extract_attempts_all_fail (oracle : Nat → Option String)
    (ft : String) (hfail : ∀ i, attempt_fails oracle ft i) :
    ∀ fuel attempt, fuel ≠ 0 →
      extract_attempts oracle ft fuel attempt = ([], fuel) := by
  intro fuel
  induction fuel with
  | zero => intro _ h; exact absurd rfl h
  | succ n ih =>
    intro attempt _
    rcases hfail attempt with ho | ⟨c, e, ho, hp⟩
    · simp only [extract_attempts, ho]
      by_cases hc : n ≠ 0
      · rw [if_pos hc, ih (attempt + 1) hc]
      · rw [if_neg hc]
        have hn : n = 0 := by omega
        subst hn
        rfl
    · simp only [extract_attempts, ho, hp]
      by_cases hc : n ≠ 0
      · rw [if_pos hc, ih (attempt + 1) hc]
      · rw [if_neg hc]
        have hn : n = 0 := by omega
        subst hn
        rfl

end Src3

/-- C8: the fact extractor makes at most 3 generator invocations per
category, and when every attempt raises or yields an unparsable
response it returns the empty fact list after exactly 3 attempts,
without propagating any exception (the embedding is total: a raised
exception would be an `Except.error`, which the loop consumes). -/
theorem extractor_bounded_retry_degrades (oracle : Nat → Option String)
    (ft : String) :
    (Src3.extract_fact_type oracle ft).2 ≤ 3 ∧
    ((∀ i, Src3.attempt_fails oracle ft i) →
      Src3.extract_fact_type oracle ft = ([], 3)) := by
  constructor
  · exact Src3.extract_attempts_count_le oracle ft 3 1
  · intro hfail
    exact Src3.extract_attempts_all_fail oracle ft hfail 3 1 (by decide)

/-- C8 witness: a generator whose response never parses yields the
empty fact list after 3 attempts. -/
theorem extractor_bounded_retry_degrades_witness :
    (Src3.extract_fact_type sampleExtractFailOracle "decision").2 ≤ 3 ∧
    Src3.extract_fact_type sampleExtractFailOracle "decision" = ([], 3) := by
  refine ⟨(extractor_bounded_retry_degrades sampleExtractFailOracle "decision").1, ?_⟩
  exact (extractor_bounded_retry_degrades sampleExtractFailOracle "decision").2
    (fun _ => Or.inr ⟨"I could not find any facts.", "Expecting value", rfl, rfl⟩)

/-! ## Parsed-item category lemma -/

namespace Src3

theorem mkFactOfItem_fact_type_spec (fields : List (String × Json))
    (ft : String) : ∀ f, mkFactOfItem fields ft = some f →
      Json.str f.fact_type = (lookupField fields "fact_type").getD (Json.str ft) ∧
      f.fact_type ∈ fact_type_enum := by
  intro f h
  unfold mkFactOfItem at h
  split at h
  next x1 x2 x3 x4 x5 a b c d heq1 heq2 heq3 heq4 =>
    split at h
    next hcond =>
      split at h
      next hctx =>
        injection h with h'
        subst h'
        exact ⟨heq1.symm, hcond.1⟩
      next s hctx =>
        injection h with h'
        subst h'
        exact ⟨heq1.symm, hcond.1⟩
      next x hctx => exact absurd h (by simp)
    next hcond => exact absurd h (by simp)
  next => exact absurd h (by simp)

end Src3

/-- C1 counterexample: a recovery parse for category `metric` whose
single item claims `fact_type` `decision` yields a fact of category
`decision`, not `metric`: the item's own `fact_type` wins. -/
theorem generator_fact_type_overrides_category :
    Src3.parse_fact_array c1_response "metric" =
      Except.ok [⟨"decision", "ship friday", "we will ship on friday",
        "high", none⟩] ∧
    ("decision" : String) ≠ "metric" :=
  ⟨rfl, by decide⟩

/-- C1 amended: a parsed fact's category is the generator-supplied
`fact_type` whenever the item carries one; the extraction call's
category is only the default for items without the field, and an item
whose `fact_type` is no valid category is dropped by the pydantic
check. -/
theorem parsed_fact_category_default (fields : List (String × Json))
    (ft : String) :
    (lookupField fields "fact_type" = none →
      ∀ f, Src3.mkFactOfItem fields ft = some f → f.fact_type = ft) ∧
    (∀ s, lookupField fields "fact_type" = some (Json.str s) →
      ∀ f, Src3.mkFactOfItem fields ft = some f → f.fact_type = s) ∧
    (∀ s, lookupField fields "fact_type" = some (Json.str s) →
      s ∉ Src3.fact_type_enum → Src3.mkFactOfItem fields ft = none) := by
  refine ⟨?_, ?_, ?_⟩
  · intro hnone f h
    have hspec := (Src3.mkFactOfItem_fact_type_spec fields ft f h).1
    rw [hnone] at hspec
    injection hspec
  · intro s hs f h
    have hspec := (Src3.mkFactOfItem_fact_type_spec fields ft f h).1
    rw [hs] at hspec
    injection hspec
  · intro s hs hmem
    cases hm : Src3.mkFactOfItem fields ft with
    | none => rfl
    | some f =>
      obtain ⟨hspec, henum⟩ := Src3.mkFactOfItem_fact_type_spec fields ft f hm
      rw [hs] at hspec
      have hfs : f.fact_type = s := by injection hspec
      rw [hfs] at henum
      exact absurd henum hmem

/-- C1 amended witness: the default and the override applied to
concrete items, and an invalid category dropped. -/
theorem parsed_fact_category_default_witness :
    ((⟨"metric", "standup at nine", "", "high", none⟩ : ExtractedFact).fact_type
      = "metric") ∧
    ((⟨"decision", "ship friday", "we will ship on friday", "high", none⟩ :
      ExtractedFact).fact_type = "decision") ∧
    Src3.mkFactOfItem [("fact_type", Json.str "banana")] "metric" = none := by
  refine ⟨?_, ?_, ?_⟩
  · exact (parsed_fact_category_default c1_absent_fields "metric").1 rfl _ rfl
  · exact (parsed_fact_category_default c1_item_fields "metric").2.1
      "decision" rfl _ rfl
  · exact (parsed_fact_category_default [("fact_type", Json.str "banana")]
      "metric").2.2 "banana" rfl (by decide)
